import Mathlib

/-!
Verification of the ledger engine and persistence store of a small
personal finance tracker (source: src/main.py).

Modelling conventions:
 - Monetary amounts are modelled at two levels. The primary model uses
   exact rationals and a parser covering the finite decimal literals; it
   carries the theorems guarded by a finite parse. A full-fidelity model
   (PyNum, pyFloatFull and the F-suffixed operations) adds the inf and
   nan values float() also produces, with Python comparison semantics,
   and exhibits the program states those values reach.
 - The interactive prompts are parameters: the raw amount text, the memo
   text and the timestamp string are arguments of the embedded operations.
 - The backing JSON file is modelled as an abstract filesystem state
   holding either nothing, unparsable bytes, or a parsed JSON value; the
   serialize-then-parse round trip of the textual encoding is identity at
   the JSON-value level.
-/

namespace PengelolaUang

/-- JSON values, the shape of what json.load returns and json.dump writes. -/
inductive Json where
  | null
  | bool (b : Bool)
  | num (q : ℚ)
  | str (s : String)
  | arr (xs : List Json)
  | obj (kvs : List (String × Json))

/-- Transaction kind: "Pemasukan" (income) or "Pengeluaran" (expense). -/
inductive Jenis where
  | Pemasukan
  | Pengeluaran
deriving DecidableEq

/-- One history entry, mirroring the dict built in tambah_pemasukan and
tambah_pengeluaran: tanggal (timestamp string), jenis, jumlah, keterangan. -/
structure Transaksi where
  tanggal : String
  jenis : Jenis
  jumlah : ℚ
  keterangan : String
deriving DecidableEq

/-- The in-memory data dict: saldo (balance) and riwayat (history). -/
structure Ledger where
  saldo : ℚ
  riwayat : List Transaksi
deriving DecidableEq

/-! ### Amount parsing

The source reads the amount as
`input(...).strip().replace('.', '').replace(',', '.')` and applies
`float` to the result (src/main.py lines 88-89 and 117-118).
-/

/-- ASCII decimal digit test. -/
def isDigitCh (c : Char) : Bool := 48 ≤ c.toNat && c.toNat ≤ 57

/-- Numeric value of a digit string, most significant first. -/
def natOfDigits (l : List Char) : Nat :=
  l.foldl (fun a c => a * 10 + (c.toNat - 48)) 0

/-- All characters are ASCII digits. -/
def allDigits (l : List Char) : Bool := l.all isDigitCh

/-- Split at the first character satisfying p; the second component is the
remainder after that character when one occurs. -/
def splitAtCh (p : Char → Bool) : List Char → List Char × Option (List Char)
  | [] => ([], none)
  | c :: cs =>
    if p c then ([], some cs)
    else
      let r := splitAtCh p cs
      (c :: r.1, r.2)

/-- Leading optional sign: true means negative. -/
def parseSign : List Char → Bool × List Char
  | '+' :: cs => (false, cs)
  | '-' :: cs => (true, cs)
  | cs => (false, cs)

/-- Mantissa: digits with an optional decimal point, at least one digit. -/
def parseMant (l : List Char) : Option ℚ :=
  match splitAtCh (fun c => c == '.') l with
  | (ip, none) =>
    if ip ≠ [] && allDigits ip then some ((natOfDigits ip : Nat) : ℚ) else none
  | (ip, some fp) =>
    if (ip ≠ [] || fp ≠ []) && allDigits ip && allDigits fp then
      some (((natOfDigits (ip ++ fp) : Nat) : ℚ) / (10 : ℚ) ^ fp.length)
    else none

/-- Exponent part after e or E: optional sign then at least one digit. -/
def parseExpPart (l : List Char) : Option Int :=
  let s := parseSign l
  if s.2 ≠ [] && allDigits s.2 then
    some (if s.1 then -(natOfDigits s.2 : Int) else (natOfDigits s.2 : Int))
  else none

/-- The finite-literal fragment of the Python built-in float conversion:
optional sign, digits with an optional decimal point, optional decimal
exponent. The full conversion, which additionally accepts the inf,
infinity and nan spellings and digit-group underscores, is pyFloatFull
below; theorems guarded by a parse hypothesis over this fragment hold of
the program because on these inputs the two conversions agree. -/
def pyFloat (l : List Char) : Option ℚ :=
  let s := parseSign l
  match splitAtCh (fun c => c == 'e' || c == 'E') s.2 with
  | (m, none) =>
    (parseMant m).map (fun q => if s.1 then -q else q)
  | (m, some e) =>
    match parseMant m, parseExpPart e with
    | some q, some ex =>
      some (if s.1 then -(q * (10 : ℚ) ^ ex) else q * (10 : ℚ) ^ ex)
    | _, _ => none

/-- Whitespace test used by strip: the characters Python str.isspace
accepts, namely 0x09-0x0D, 0x1C-0x1F, space, NEL (0x85), NBSP (0xA0) and
the Unicode space, line and paragraph separators. -/
def isSpaceCh (c : Char) : Bool :=
  (9 ≤ c.toNat && c.toNat ≤ 13) || (28 ≤ c.toNat && c.toNat ≤ 32)
    || c.toNat == 133 || c.toNat == 160 || c.toNat == 5760
    || (8192 ≤ c.toNat && c.toNat ≤ 8202) || c.toNat == 8232 || c.toNat == 8233
    || c.toNat == 8239 || c.toNat == 8287 || c.toNat == 12288

/-- Python str.strip: remove leading and trailing whitespace. -/
def stripChars (l : List Char) : List Char :=
  ((l.dropWhile isSpaceCh).reverse.dropWhile isSpaceCh).reverse

/-- The transformation applied to the raw amount text before float:
strip, delete every dot, replace every comma with a dot
(src/main.py lines 88 and 117). -/
def normalisasiJumlah (s : String) : List Char :=
  ((stripChars s.data).filter (fun c => c != '.')).map
    (fun c => if c == ',' then '.' else c)

/-- Parse a raw amount text the way both recording operations do. -/
def parseJumlah (s : String) : Option ℚ := pyFloat (normalisasiJumlah s)

/-- Python str.strip on a String. -/
def stripStr (s : String) : String := String.mk (stripChars s.data)

/-- The memo actually stored: the stripped memo, or the placeholder
"(Tanpa keterangan)" when the stripped memo is empty
(src/main.py lines 96 and 125). -/
def keteranganFinal (k : String) : String :=
  if stripStr k = "" then "(Tanpa keterangan)" else stripStr k

/-! ### Serialization to JSON

save_data writes the data dict with json.dump; load_data reads it back
with json.load. The textual encoding round-trips JSON values, so the
store is modelled at the JSON-value level.
-/

/-- On-disk spelling of a transaction kind. -/
def jenisStr : Jenis → String
  | .Pemasukan => "Pemasukan"
  | .Pengeluaran => "Pengeluaran"

/-- The JSON object built for one transaction (src/main.py lines 100-105
and 135-140). -/
def transaksiJson (t : Transaksi) : Json :=
  .obj [("tanggal", .str t.tanggal), ("jenis", .str (jenisStr t.jenis)),
        ("jumlah", .num t.jumlah), ("keterangan", .str t.keterangan)]

/-- The JSON object holding the whole data dict: saldo and riwayat. -/
def ledgerJson (d : Ledger) : Json :=
  .obj [("saldo", .num d.saldo), ("riwayat", .arr (d.riwayat.map transaksiJson))]

/-- A backing file is either unparsable bytes or text that parses to a
JSON value. -/
inductive RawFile where
  | garbage (bytes : String)
  | json (v : Json)

/-- Filesystem state: the data file and its backup-name sibling
(DATA_FILE and DATA_FILE + ".bak"). -/
structure FS where
  data : Option RawFile
  bak : Option RawFile

/-- save_data: overwrite the data file with the serialized dict
(src/main.py lines 76-79). -/
def save_data (d : Json) (fs : FS) : FS :=
  { fs with data := some (.json d) }

/-- The fresh initial data dict built by load_data
(src/main.py lines 59 and 71). -/
def data_awal : Json := .obj [("saldo", .num 0), ("riwayat", .arr [])]

/-- load_data (src/main.py lines 56-73): missing file creates and saves
the initial dict; a parsable file is returned as-is; an unparsable file
is renamed to the backup name (best-effort, a rename failure is
swallowed) and the initial dict is saved and returned. renameOk says
whether the os.rename call succeeds. -/
def load_data (renameOk : Bool) (fs : FS) : Json × FS :=
  match fs.data with
  | none => (data_awal, save_data data_awal fs)
  | some (.json v) => (v, fs)
  | some (.garbage b) =>
    let fs1 : FS := if renameOk then ⟨none, some (.garbage b)⟩ else fs
    (data_awal, save_data data_awal fs1)

/-! ### The two recording operations

tambah_pemasukan (src/main.py lines 84-110) and tambah_pengeluaran
(src/main.py lines 113-145). Each takes the timestamp string, the raw
amount text and the raw memo text as parameters and acts on the
in-memory ledger and the filesystem.
-/

/-- Outcome of a recording operation, read off from which message branch
the source takes. -/
inductive HasilTransaksi where
  | ok (t : Transaksi)
  | invalidAmount
  | insufficientBalance (saldo : ℚ)
deriving DecidableEq

/-- tambah_pemasukan: parse the amount; on unparsable input or a
non-positive value report an invalid amount and change nothing;
otherwise add the amount to the balance, append the transaction and
save. -/
def tambah_pemasukan (now jumlah_str ket_str : String) (d : Ledger) (fs : FS) :
    HasilTransaksi × Ledger × FS :=
  match parseJumlah jumlah_str with
  | none => (.invalidAmount, d, fs)
  | some jumlah =>
    if jumlah ≤ 0 then (.invalidAmount, d, fs)
    else
      let t : Transaksi := ⟨now, .Pemasukan, jumlah, keteranganFinal ket_str⟩
      let d2 : Ledger := ⟨d.saldo + jumlah, d.riwayat ++ [t]⟩
      (.ok t, d2, save_data (ledgerJson d2) fs)

/-- tambah_pengeluaran: same validation; additionally, when the amount
exceeds the current balance, report the insufficient balance (carrying
the current balance) and change nothing; otherwise subtract, append and
save. -/
def tambah_pengeluaran (now jumlah_str ket_str : String) (d : Ledger) (fs : FS) :
    HasilTransaksi × Ledger × FS :=
  match parseJumlah jumlah_str with
  | none => (.invalidAmount, d, fs)
  | some jumlah =>
    if jumlah ≤ 0 then (.invalidAmount, d, fs)
    else
      let t : Transaksi := ⟨now, .Pengeluaran, jumlah, keteranganFinal ket_str⟩
      if jumlah > d.saldo then (.insufficientBalance d.saldo, d, fs)
      else
        let d2 : Ledger := ⟨d.saldo - jumlah, d.riwayat ++ [t]⟩
        (.ok t, d2, save_data (ledgerJson d2) fs)

/-! ### Sessions of operations, for the reachability invariant -/

/-- One user action: record an income or an expense, with the prompt
answers as fields. -/
inductive Op where
  | pemasukan (now jumlah_str ket_str : String)
  | pengeluaran (now jumlah_str ket_str : String)

/-- Apply one action to the session state. -/
def applyOp (st : Ledger × FS) : Op → Ledger × FS
  | .pemasukan n j k => (tambah_pemasukan n j k st.1 st.2).2
  | .pengeluaran n j k => (tambah_pengeluaran n j k st.1 st.2).2

/-- Run a whole session from a starting state. -/
def runOps (ops : List Op) (st : Ledger × FS) : Ledger × FS :=
  ops.foldl applyOp st

/-- Sum of the income amounts in a history. -/
def sumPemasukan (l : List Transaksi) : ℚ :=
  (l.map fun t => match t.jenis with | .Pemasukan => t.jumlah | .Pengeluaran => 0).sum

/-- Sum of the expense amounts in a history. -/
def sumPengeluaran (l : List Transaksi) : ℚ :=
  (l.map fun t => match t.jenis with | .Pemasukan => 0 | .Pengeluaran => t.jumlah).sum

/-! ### Interrupt handler

The top-level KeyboardInterrupt handler (src/main.py lines 282-293) runs
save_data(load_data()) inside a try block whose except clause does
nothing: the loaded dict is written back, and an error in that final
save attempt is swallowed. saveOk says whether the final save_data call
succeeds. -/

/-- The KeyboardInterrupt handler effect on the filesystem. -/
def interrupt_handler (saveOk renameOk : Bool) (fs : FS) : FS :=
  let p := load_data renameOk fs
  if saveOk then save_data p.1 p.2 else p.2

/-! ### A spec-side decoder for the round-trip claim

The source never decodes the JSON back into typed form (load_data
returns the parsed value as-is), so to state that a saved-then-loaded
ledger has identical balance and history we read the on-disk layout
back. These definitions follow the persisted state layout of the spec. -/

/-- Read a transaction kind back from its on-disk spelling. -/
def jenisOfStr (s : String) : Option Jenis :=
  if s = "Pemasukan" then some .Pemasukan
  else if s = "Pengeluaran" then some .Pengeluaran
  else none

/-- Read one transaction back from its JSON object. -/
def transaksiOfJson : Json → Option Transaksi
  | .obj [("tanggal", .str tg), ("jenis", .str js),
          ("jumlah", .num jm), ("keterangan", .str kt)] =>
    (jenisOfStr js).map fun j => ⟨tg, j, jm, kt⟩
  | _ => none

/-- Read a history back from a list of JSON objects. -/
def riwayatOfJson : List Json → Option (List Transaksi)
  | [] => some []
  | x :: xs =>
    match transaksiOfJson x, riwayatOfJson xs with
    | some t, some ts => some (t :: ts)
    | _, _ => none

/-- Read a whole ledger back from its JSON object. -/
def ledgerOfJson : Json → Option Ledger
  | .obj [("saldo", .num s), ("riwayat", .arr xs)] =>
    (riwayatOfJson xs).map fun ts => ⟨s, ts⟩
  | _ => none

/-- An empty filesystem: no data file, no backup file. -/
def fs0 : FS := ⟨none, none⟩

/-! ### Full-fidelity amount model

Python float() also accepts the spellings inf, infinity and nan
(case-insensitively, after an optional sign) and single underscores
between digits, and the program has no finiteness check: a parsed
non-finite value passes the `jumlah <= 0` test (both nan <= 0 and
inf <= 0 are False) and is recorded and persisted. The definitions below
extend the amount domain with the non-finite values and embed the
recording operations over it, exactly mirroring src/main.py lines 84-110
and 113-145; they are used to exhibit where the program departs from the
spec. -/

/-- A Python float value as the program can hold it: an exact finite
value, an infinity, or nan. -/
inductive PyNum where
  | fin (q : ℚ)
  | pinf
  | ninf
  | nan
deriving DecidableEq

/-- Python float negation. -/
def pyNeg : PyNum → PyNum
  | .fin q => .fin (-q)
  | .pinf => .ninf
  | .ninf => .pinf
  | .nan => .nan

/-- Python float addition (without rounding on the finite values). -/
def pyAdd : PyNum → PyNum → PyNum
  | .nan, _ => .nan
  | _, .nan => .nan
  | .pinf, .ninf => .nan
  | .ninf, .pinf => .nan
  | .pinf, _ => .pinf
  | _, .pinf => .pinf
  | .ninf, _ => .ninf
  | _, .ninf => .ninf
  | .fin a, .fin b => .fin (a + b)

/-- Python float subtraction. -/
def pySub (a b : PyNum) : PyNum := pyAdd a (pyNeg b)

/-- Python float less-or-equal: any comparison with nan is False. -/
def pyLe : PyNum → PyNum → Bool
  | .nan, _ => false
  | _, .nan => false
  | .ninf, _ => true
  | _, .pinf => true
  | .pinf, _ => false
  | _, .ninf => false
  | .fin a, .fin b => a ≤ b

/-- Python float strict less-than: any comparison with nan is False. -/
def pyLt : PyNum → PyNum → Bool
  | .nan, _ => false
  | _, .nan => false
  | _, .ninf => false
  | .ninf, _ => true
  | .pinf, _ => false
  | _, .pinf => true
  | .fin a, .fin b => a < b

/-- Python float equality: nan is equal to nothing, itself included. -/
def pyEq : PyNum → PyNum → Bool
  | .nan, _ => false
  | _, .nan => false
  | .fin a, .fin b => a = b
  | .pinf, .pinf => true
  | .ninf, .ninf => true
  | _, _ => false

/-- ASCII lowercasing, for the case-insensitive float keywords. -/
def lowerAscii (c : Char) : Char :=
  if 65 ≤ c.toNat && c.toNat ≤ 90 then Char.ofNat (c.toNat + 32) else c

/-- Drop the underscores of a digit group. -/
def deU (l : List Char) : List Char := l.filter (fun c => c != '_')

/-- Each underscore sits between two digits (prev is the preceding
character, none at the start). -/
def okU (prev : Option Char) : List Char → Bool
  | [] => true
  | c :: rest =>
    if c == '_' then
      match prev, rest with
      | some p, d :: _ => isDigitCh p && isDigitCh d && okU (some c) rest
      | _, _ => false
    else okU (some c) rest

/-- A digit run with optional well-placed underscores: the bare digits,
or none when malformed. -/
def digitRun (l : List Char) : Option (List Char) :=
  if okU none l && allDigits (deU l) then some (deU l) else none

/-- Mantissa with underscore groups: as parseMant, each part checked and
stripped by digitRun. -/
def parseMantU (l : List Char) : Option ℚ :=
  match splitAtCh (fun c => c == '.') l with
  | (ip, none) =>
    match digitRun ip with
    | some ds => if ds ≠ [] then some ((natOfDigits ds : Nat) : ℚ) else none
    | none => none
  | (ip, some fp) =>
    match digitRun ip, digitRun fp with
    | some dsi, some dsf =>
      if dsi ≠ [] || dsf ≠ [] then
        some (((natOfDigits (dsi ++ dsf) : Nat) : ℚ) / (10 : ℚ) ^ dsf.length)
      else none
    | _, _ => none

/-- Exponent part with underscore groups. -/
def parseExpPartU (l : List Char) : Option Int :=
  let s := parseSign l
  match digitRun s.2 with
  | some ds =>
    if ds ≠ [] then
      some (if s.1 then -(natOfDigits ds : Int) else (natOfDigits ds : Int))
    else none
  | none => none

/-- The full Python float conversion: optional sign, then the keywords
inf, infinity or nan (case-insensitive), or a decimal literal with
optional underscores between digits and an optional exponent. -/
def pyFloatFull (l : List Char) : Option PyNum :=
  let s := parseSign l
  let low := s.2.map lowerAscii
  if low = "inf".data || low = "infinity".data then
    some (if s.1 then .ninf else .pinf)
  else if low = "nan".data then some .nan
  else
    match splitAtCh (fun c => c == 'e' || c == 'E') s.2 with
    | (m, none) =>
      (parseMantU m).map (fun q => .fin (if s.1 then -q else q))
    | (m, some e) =>
      match parseMantU m, parseExpPartU e with
      | some q, some ex =>
        some (.fin (if s.1 then -(q * (10 : ℚ) ^ ex) else q * (10 : ℚ) ^ ex))
      | _, _ => none

/-- Parse a raw amount text with the full float conversion, after the
same strip, dot-deletion and comma-to-dot normalization. -/
def parseJumlahF (s : String) : Option PyNum := pyFloatFull (normalisasiJumlah s)

/-- A history entry whose amount may be non-finite. -/
structure TransaksiF where
  tanggal : String
  jenis : Jenis
  jumlah : PyNum
  keterangan : String
deriving DecidableEq

/-- A ledger whose balance may be non-finite. -/
structure LedgerF where
  saldo : PyNum
  riwayat : List TransaksiF
deriving DecidableEq

/-- Outcome of a recording operation over the full amount domain. -/
inductive HasilF where
  | ok (t : TransaksiF)
  | invalidAmount
  | insufficientBalance (saldo : PyNum)
deriving DecidableEq

/-- JSON values whose numbers are Python floats: json.dump writes nan
and the infinities as the NaN and Infinity tokens and json.load reads
them back, so they survive persistence. -/
inductive JsonF where
  | num (v : PyNum)
  | str (s : String)
  | arr (xs : List JsonF)
  | obj (kvs : List (String × JsonF))

/-- The data file contents in the full model. -/
def FSF := Option JsonF

/-- save_data in the full model: overwrite the data file. -/
def save_dataF (d : JsonF) (_fs : FSF) : FSF := some d

/-- Serialization of a full-model transaction. -/
def transaksiJsonF (t : TransaksiF) : JsonF :=
  .obj [("tanggal", .str t.tanggal), ("jenis", .str (jenisStr t.jenis)),
        ("jumlah", .num t.jumlah), ("keterangan", .str t.keterangan)]

/-- Serialization of a full-model ledger. -/
def ledgerJsonF (d : LedgerF) : JsonF :=
  .obj [("saldo", .num d.saldo), ("riwayat", .arr (d.riwayat.map transaksiJsonF))]

/-- tambah_pemasukan over the full amount domain: the only validation is
`jumlah <= 0` (src/main.py line 93), which non-finite values pass. -/
def tambah_pemasukanF (now jumlah_str ket_str : String) (d : LedgerF) (fs : FSF) :
    HasilF × LedgerF × FSF :=
  match parseJumlahF jumlah_str with
  | none => (.invalidAmount, d, fs)
  | some jumlah =>
    if pyLe jumlah (.fin 0) then (.invalidAmount, d, fs)
    else
      let t : TransaksiF := ⟨now, .Pemasukan, jumlah, keteranganFinal ket_str⟩
      let d2 : LedgerF := ⟨pyAdd d.saldo jumlah, d.riwayat ++ [t]⟩
      (.ok t, d2, save_dataF (ledgerJsonF d2) fs)

/-- tambah_pengeluaran over the full amount domain: the balance check is
`jumlah > saldo_sekarang` (src/main.py line 128), which a nan amount
also passes, nan comparisons being False. -/
def tambah_pengeluaranF (now jumlah_str ket_str : String) (d : LedgerF) (fs : FSF) :
    HasilF × LedgerF × FSF :=
  match parseJumlahF jumlah_str with
  | none => (.invalidAmount, d, fs)
  | some jumlah =>
    if pyLe jumlah (.fin 0) then (.invalidAmount, d, fs)
    else
      let t : TransaksiF := ⟨now, .Pengeluaran, jumlah, keteranganFinal ket_str⟩
      if pyLt d.saldo jumlah then (.insufficientBalance d.saldo, d, fs)
      else
        let d2 : LedgerF := ⟨pySub d.saldo jumlah, d.riwayat ++ [t]⟩
        (.ok t, d2, save_dataF (ledgerJsonF d2) fs)

/-- Income total of a full-model history, folded with float addition. -/
def sumPemasukanF (l : List TransaksiF) : PyNum :=
  l.foldl (fun a t => match t.jenis with | .Pemasukan => pyAdd a t.jumlah | .Pengeluaran => a)
    (.fin 0)

/-- Expense total of a full-model history, folded with float addition. -/
def sumPengeluaranF (l : List TransaksiF) : PyNum :=
  l.foldl (fun a t => match t.jenis with | .Pemasukan => a | .Pengeluaran => pyAdd a t.jumlah)
    (.fin 0)

/-- The ledger invariant: the balance is the income total minus the
expense total of the history, and it is non-negative. -/
def GoodLedger (d : Ledger) : Prop :=
  d.saldo = sumPemasukan d.riwayat - sumPengeluaran d.riwayat ∧ 0 ≤ d.saldo

lemma sumPemasukan_append (l1 l2 : List Transaksi) :
    sumPemasukan (l1 ++ l2) = sumPemasukan l1 + sumPemasukan l2 := by
  simp [sumPemasukan]

lemma sumPengeluaran_append (l1 l2 : List Transaksi) :
    sumPengeluaran (l1 ++ l2) = sumPengeluaran l1 + sumPengeluaran l2 := by
  simp [sumPengeluaran]

lemma goodLedger_pemasukan (now s k : String) (d : Ledger) (fs : FS)
    (h : GoodLedger d) : GoodLedger (tambah_pemasukan now s k d fs).2.1 := by
  unfold tambah_pemasukan
  cases hp : parseJumlah s with
  | none => exact h
  | some j =>
    by_cases hj : j ≤ 0
    · simpa [hj] using h
    · push_neg at hj
      simp only [if_neg (not_le.mpr hj)]
      constructor
      · show d.saldo + j = sumPemasukan (d.riwayat ++ [_]) - sumPengeluaran (d.riwayat ++ [_])
        rw [sumPemasukan_append, sumPengeluaran_append, h.1]
        simp [sumPemasukan, sumPengeluaran]
        ring
      · show 0 ≤ d.saldo + j
        have := h.2
        linarith

lemma goodLedger_pengeluaran (now s k : String) (d : Ledger) (fs : FS)
    (h : GoodLedger d) : GoodLedger (tambah_pengeluaran now s k d fs).2.1 := by
  unfold tambah_pengeluaran
  cases hp : parseJumlah s with
  | none => exact h
  | some j =>
    by_cases hj : j ≤ 0
    · simpa [hj] using h
    · push_neg at hj
      simp only [if_neg (not_le.mpr hj)]
      by_cases hs : j > d.saldo
      · simpa [hs] using h
      · push_neg at hs
        simp only [if_neg (not_lt.mpr hs)]
        constructor
        · show d.saldo - j = sumPemasukan (d.riwayat ++ [_]) - sumPengeluaran (d.riwayat ++ [_])
          rw [sumPemasukan_append, sumPengeluaran_append, h.1]
          simp [sumPemasukan, sumPengeluaran]
          ring
        · show 0 ≤ d.saldo - j
          linarith

lemma goodLedger_applyOp (st : Ledger × FS) (op : Op) (h : GoodLedger st.1) :
    GoodLedger (applyOp st op).1 := by
  cases op with
  | pemasukan n j k => exact goodLedger_pemasukan n j k st.1 st.2 h
  | pengeluaran n j k => exact goodLedger_pengeluaran n j k st.1 st.2 h

lemma goodLedger_runOps (ops : List Op) :
    ∀ st : Ledger × FS, GoodLedger st.1 → GoodLedger (runOps ops st).1 := by
  induction ops with
  | nil => intro st h; exact h
  | cons op ops ih => intro st h; exact ih _ (goodLedger_applyOp st op h)

lemma transaksiOfJson_transaksiJson (t : Transaksi) :
    transaksiOfJson (transaksiJson t) = some t := by
  cases t with
  | mk tg js jm kt =>
    cases js <;> simp [transaksiJson, transaksiOfJson, jenisStr, jenisOfStr]

lemma riwayatOfJson_map (l : List Transaksi) :
    riwayatOfJson (l.map transaksiJson) = some l := by
  induction l with
  | nil => rfl
  | cons t ts ih =>
    simp [riwayatOfJson, transaksiOfJson_transaksiJson, ih]

/-- Restricted to the finite-literal fragment of the amount parse (the
intended inputs), every reachable ledger keeps the balance equal to the
income total minus the expense total and non-negative; the program
breaks this only through the missing finiteness check exhibited in
c1_nan_income_breaks_invariant. -/
theorem goodLedger_reachable (ops : List Op) (fs : FS) :
    (runOps ops (⟨0, []⟩, fs)).1.saldo
        = sumPemasukan (runOps ops (⟨0, []⟩, fs)).1.riwayat
          - sumPengeluaran (runOps ops (⟨0, []⟩, fs)).1.riwayat
      ∧ 0 ≤ (runOps ops (⟨0, []⟩, fs)).1.saldo :=
  goodLedger_runOps ops (⟨0, []⟩, fs) (by constructor <;> simp [sumPemasukan, sumPengeluaran])

/-- C1 (code bug): the amount text "nan" passes every check of
tambah_pemasukan (float parses it, and nan <= 0 is False at src/main.py
line 93), so from the empty ledger one successful record-income reaches
a state whose balance is nan: the operation reports success, the balance
is no rational number at all, and under the float equality the program
computes with, the balance does not equal the income total minus the
expense total of the history — the claimed invariant fails on the
program. -/
theorem c1_nan_income_breaks_invariant :
    (tambah_pemasukanF "t" "nan" "x" ⟨.fin 0, []⟩ none).1
        = .ok ⟨"t", .Pemasukan, .nan, "x"⟩
      ∧ (tambah_pemasukanF "t" "nan" "x" ⟨.fin 0, []⟩ none).2.1.saldo = .nan
      ∧ (∀ q : ℚ, (tambah_pemasukanF "t" "nan" "x" ⟨.fin 0, []⟩ none).2.1.saldo ≠ .fin q)
      ∧ pyEq (tambah_pemasukanF "t" "nan" "x" ⟨.fin 0, []⟩ none).2.1.saldo
          (pySub
            (sumPemasukanF (tambah_pemasukanF "t" "nan" "x" ⟨.fin 0, []⟩ none).2.1.riwayat)
            (sumPengeluaranF (tambah_pemasukanF "t" "nan" "x" ⟨.fin 0, []⟩ none).2.1.riwayat))
          = false :=
  ⟨rfl, rfl,
   fun q h => PyNum.noConfusion (show PyNum.nan = PyNum.fin q from h),
   rfl⟩

/-- C2: when the parsed amount is positive and strictly greater than the
current balance, tambah_pengeluaran fails with the insufficient-balance
outcome carrying the current balance and leaves the ledger and the
filesystem unchanged; moreover tambah_pengeluaran never takes a
non-negative balance below zero, for any raw amount text. -/
theorem c2_insufficient_balance (now s k : String) (d : Ledger) (fs : FS) (j : ℚ)
    (hp : parseJumlah s = some j) (hpos : 0 < j) (hgt : d.saldo < j) :
    tambah_pengeluaran now s k d fs = (.insufficientBalance d.saldo, d, fs)
      ∧ ∀ (s2 k2 : String) (d2 : Ledger), 0 ≤ d2.saldo →
          0 ≤ (tambah_pengeluaran now s2 k2 d2 fs).2.1.saldo := by
  constructor
  · unfold tambah_pengeluaran
    rw [hp]
    simp only [if_neg (not_le.mpr hpos), if_pos hgt]
  · intro s2 k2 d2 h2
    unfold tambah_pengeluaran
    cases hp2 : parseJumlah s2 with
    | none => exact h2
    | some j2 =>
      by_cases hj2 : j2 ≤ 0
      · simpa [hj2] using h2
      · push_neg at hj2
        simp only [if_neg (not_le.mpr hj2)]
        by_cases hs2 : j2 > d2.saldo
        · simpa [hs2] using h2
        · push_neg at hs2
          simp only [if_neg (not_lt.mpr hs2)]
          show 0 ≤ d2.saldo - j2
          linarith

/-- C2 witness: an expense of 1500000 against a balance of 1000000 is
rejected with the insufficient-balance outcome and changes nothing. -/
theorem c2_insufficient_balance_witness :
    tambah_pengeluaran "t" "1500000" "sewa" ⟨1000000, []⟩ fs0 =
      (.insufficientBalance 1000000, ⟨1000000, []⟩, fs0) :=
  (c2_insufficient_balance "t" "1500000" "sewa" ⟨1000000, []⟩ fs0 1500000
    rfl (by norm_num) (by norm_num)).1

/-- Over the finite-literal fragment: unparsable or non-positive amount
text makes both operations fail with the invalid-amount outcome and
leave the ledger and the filesystem unchanged. This is the part of the
validation the program implements correctly; the missing finiteness
check is exhibited in c3_nonfinite_amount_accepted. -/
theorem invalidAmount_unchanged (now s k : String) (d : Ledger) (fs : FS)
    (h : parseJumlah s = none ∨ ∃ j, parseJumlah s = some j ∧ j ≤ 0) :
    tambah_pemasukan now s k d fs = (.invalidAmount, d, fs)
      ∧ tambah_pengeluaran now s k d fs = (.invalidAmount, d, fs) := by
  rcases h with h | ⟨j, hj, hle⟩
  · constructor
    · unfold tambah_pemasukan; rw [h]
    · unfold tambah_pengeluaran; rw [h]
  · constructor
    · unfold tambah_pemasukan; rw [hj]; simp only [if_pos hle]
    · unfold tambah_pengeluaran; rw [hj]; simp only [if_pos hle]

/-- Evaluation of the invalid-amount path: the unparsable text "abc" and
the non-positive texts "0" and "-3" are all rejected with no state
change. -/
theorem invalidAmount_unchanged_eval :
    (tambah_pemasukan "t" "abc" "x" ⟨7, []⟩ fs0 = (.invalidAmount, ⟨7, []⟩, fs0)
        ∧ tambah_pengeluaran "t" "abc" "x" ⟨7, []⟩ fs0 = (.invalidAmount, ⟨7, []⟩, fs0))
      ∧ (tambah_pemasukan "t" "0" "x" ⟨7, []⟩ fs0 = (.invalidAmount, ⟨7, []⟩, fs0)
        ∧ tambah_pengeluaran "t" "0" "x" ⟨7, []⟩ fs0 = (.invalidAmount, ⟨7, []⟩, fs0))
      ∧ (tambah_pemasukan "t" "-3" "x" ⟨7, []⟩ fs0 = (.invalidAmount, ⟨7, []⟩, fs0)
        ∧ tambah_pengeluaran "t" "-3" "x" ⟨7, []⟩ fs0 = (.invalidAmount, ⟨7, []⟩, fs0)) :=
  ⟨invalidAmount_unchanged "t" "abc" "x" ⟨7, []⟩ fs0 (Or.inl rfl),
   invalidAmount_unchanged "t" "0" "x" ⟨7, []⟩ fs0 (Or.inr ⟨0, rfl, le_refl 0⟩),
   invalidAmount_unchanged "t" "-3" "x" ⟨7, []⟩ fs0 (Or.inr ⟨-3, rfl, by norm_num⟩)⟩

/-- C3 (code bug): the program has no finiteness check, so the claim
that an input is accepted only when it parses as a positive finite
number fails. The text "inf" parses to infinity, passes the only
validation (`jumlah <= 0`, src/main.py line 93), is recorded as a
transaction amount and the resulting ledger is persisted; "nan" is
likewise accepted, both as an income and (nan comparisons being False,
src/main.py line 128) as an expense; and the underscored text "1_5" is
accepted as 15. -/
theorem c3_nonfinite_amount_accepted :
    (tambah_pemasukanF "t" "inf" "x" ⟨.fin 0, []⟩ none).1
        = .ok ⟨"t", .Pemasukan, .pinf, "x"⟩
      ∧ (tambah_pemasukanF "t" "inf" "x" ⟨.fin 0, []⟩ none).2.1
          = ⟨.pinf, [⟨"t", .Pemasukan, .pinf, "x"⟩]⟩
      ∧ (tambah_pemasukanF "t" "inf" "x" ⟨.fin 0, []⟩ none).2.2
          = some (ledgerJsonF ⟨.pinf, [⟨"t", .Pemasukan, .pinf, "x"⟩]⟩)
      ∧ (tambah_pemasukanF "t" "nan" "y" ⟨.fin 0, []⟩ none).1
          = .ok ⟨"t", .Pemasukan, .nan, "y"⟩
      ∧ (tambah_pengeluaranF "t" "nan" "y" ⟨.fin 3, []⟩ none).2.1.saldo = .nan
      ∧ parseJumlahF "1_5" = some (.fin 15) :=
  ⟨rfl, rfl, rfl, rfl, rfl, rfl⟩

/-- C4 counterexample: the stored memo is the stripped memo text, not the
given memo text. Recording an income of 5 with the memo " x " stores a
transaction whose memo is "x", which differs from the given memo, so the
appended entry does not carry the given memo as the claim states. -/
theorem c4_memo_counterexample :
    (tambah_pemasukan "t" "5" " x " ⟨0, []⟩ fs0).2.1.riwayat
        = [⟨"t", .Pemasukan, 5, "x"⟩]
      ∧ (⟨"t", .Pemasukan, 5, "x"⟩ : Transaksi) ≠ ⟨"t", .Pemasukan, 5, " x "⟩ :=
  ⟨rfl, by decide⟩

/-- C4 (amended): for every parsed positive amount, tambah_pemasukan
adds exactly the amount to the balance and tambah_pengeluaran (when the
amount does not exceed the balance) subtracts exactly the amount; each
appends exactly one transaction at the end of the history carrying the
matching kind, the amount, the timestamp and the memo stripped of
surrounding whitespace (the placeholder when the stripped memo is
empty), leaves the earlier entries unchanged, and saves the updated
ledger to the store. -/
theorem c4_success_effects (now s k : String) (d : Ledger) (fs : FS) (j : ℚ)
    (hp : parseJumlah s = some j) (hpos : 0 < j) :
    tambah_pemasukan now s k d fs =
        (.ok ⟨now, .Pemasukan, j, keteranganFinal k⟩,
         ⟨d.saldo + j, d.riwayat ++ [⟨now, .Pemasukan, j, keteranganFinal k⟩]⟩,
         save_data (ledgerJson
           ⟨d.saldo + j, d.riwayat ++ [⟨now, .Pemasukan, j, keteranganFinal k⟩]⟩) fs)
      ∧ (j ≤ d.saldo →
          tambah_pengeluaran now s k d fs =
            (.ok ⟨now, .Pengeluaran, j, keteranganFinal k⟩,
             ⟨d.saldo - j, d.riwayat ++ [⟨now, .Pengeluaran, j, keteranganFinal k⟩]⟩,
             save_data (ledgerJson
               ⟨d.saldo - j, d.riwayat ++ [⟨now, .Pengeluaran, j, keteranganFinal k⟩]⟩) fs))
      ∧ (stripStr k = "" → keteranganFinal k = "(Tanpa keterangan)")
      ∧ (stripStr k ≠ "" → keteranganFinal k = stripStr k) := by
  refine ⟨?_, ?_, ?_, ?_⟩
  · unfold tambah_pemasukan
    rw [hp]
    simp only [if_neg (not_le.mpr hpos)]
  · intro hle
    unfold tambah_pengeluaran
    rw [hp]
    simp only [if_neg (not_le.mpr hpos), if_neg (not_lt.mpr hle)]
  · intro he
    unfold keteranganFinal
    rw [if_pos he]
  · intro hne
    unfold keteranganFinal
    rw [if_neg hne]

/-- C4 witness: on a balance of 1000000, an expense of 200000 with a
blank memo succeeds, leaves a balance of 800000 and appends one expense
entry with the placeholder memo; the updated ledger is saved. -/
theorem c4_success_effects_witness :
    tambah_pengeluaran "t" "200000" "" ⟨1000000, []⟩ fs0 =
      (.ok ⟨"t", .Pengeluaran, 200000, "(Tanpa keterangan)"⟩,
       ⟨800000, [⟨"t", .Pengeluaran, 200000, "(Tanpa keterangan)"⟩]⟩,
       save_data (ledgerJson
         ⟨800000, [⟨"t", .Pengeluaran, 200000, "(Tanpa keterangan)"⟩]⟩) fs0) := by
  have hk : keteranganFinal "" = "(Tanpa keterangan)" := rfl
  have h := (c4_success_effects "t" "200000" "" ⟨1000000, []⟩ fs0 200000
    rfl (by norm_num)).2.1 (by norm_num)
  rw [hk] at h
  rw [h]
  norm_num

/-- C5: saving a ledger and loading it back returns exactly the saved
JSON value, and that value decodes to a ledger with identical balance
and history in the same order. -/
theorem c5_save_load_roundtrip (d : Ledger) (fs : FS) (renameOk : Bool) :
    (load_data renameOk (save_data (ledgerJson d) fs)).1 = ledgerJson d
      ∧ ledgerOfJson (ledgerJson d) = some d := by
  constructor
  · rfl
  · simp [ledgerOfJson, ledgerJson, riwayatOfJson_map]

/-- C6: when the data file exists but is unparsable, load_data returns
the fresh initial dict and persists it in place of the old file; when
the rename succeeds the original bytes end up under the backup name, and
when it fails the failure is swallowed and the backup slot is left as it
was. In both cases the caller gets a usable ledger and no error
propagates. -/
theorem c6_corrupt_recovery (b : String) (bak0 : Option RawFile) (renameOk : Bool) :
    load_data renameOk ⟨some (.garbage b), bak0⟩ =
      (data_awal,
       ⟨some (.json data_awal), if renameOk then some (.garbage b) else bak0⟩) := by
  cases renameOk <;> rfl

/-- C7: when the data file does not exist, load_data returns the initial
dict with balance 0 and empty history and persists it to the data file
before returning; the initial dict is exactly the serialization of the
empty ledger. -/
theorem c7_missing_file_creates_initial (bak0 : Option RawFile) (renameOk : Bool) :
    load_data renameOk ⟨none, bak0⟩ = (data_awal, ⟨some (.json data_awal), bak0⟩)
      ∧ data_awal = ledgerJson ⟨0, []⟩ :=
  ⟨rfl, rfl⟩

/-- C8 counterexample: the interrupt handler persists the ledger it
re-loads from the backing store, not the in-memory ledger. With the
in-memory ledger at balance 5 (mid-operation, not yet saved) and the
store holding the empty ledger, the handler leaves the store holding the
empty ledger, so the in-memory state is not persisted. -/
theorem c8_interrupt_counterexample :
    (interrupt_handler true true ⟨some (.json (ledgerJson ⟨0, []⟩)), none⟩).data
      ≠ some (.json (ledgerJson ⟨5, []⟩)) := by
  intro h
  norm_num [interrupt_handler, load_data, save_data, ledgerJson] at h

/-- C8 (amended): on interruption the program re-loads the stored ledger
and performs a best-effort save of that loaded value; an error raised
during the final save attempt is swallowed, the handler completing with
the store unchanged. Whenever the stored value is the serialization of
the in-memory ledger (as it is after every completed operation), this
final save persists the in-memory state. -/
theorem c8_interrupt_saves_loaded (fs : FS) (renameOk : Bool) (v : Json)
    (h : fs.data = some (.json v)) :
    interrupt_handler true renameOk fs = save_data v fs
      ∧ interrupt_handler false renameOk fs = fs := by
  obtain ⟨dat, bk⟩ := fs
  simp only at h
  subst h
  exact ⟨rfl, rfl⟩

/-- C8 witness: with the store holding the initial dict, the handler
with a succeeding save re-saves it, and the handler with a failing save
leaves the store unchanged without raising. -/
theorem c8_interrupt_saves_loaded_witness :
    interrupt_handler true true ⟨some (.json data_awal), none⟩ =
        save_data data_awal ⟨some (.json data_awal), none⟩
      ∧ interrupt_handler false true ⟨some (.json data_awal), none⟩ =
        ⟨some (.json data_awal), none⟩ :=
  c8_interrupt_saves_loaded ⟨some (.json data_awal), none⟩ true data_awal rfl

/-- C9: the amount text is stripped, then every dot is deleted, then
every comma becomes a dot, and only then is the result parsed; in
particular the text "1.5" is recorded as the amount 15, not 1.5. -/
theorem c9_locale_transform (s : String) :
    parseJumlah s
        = pyFloat (((stripChars s.data).filter (fun c => c != '.')).map
            (fun c => if c == ',' then '.' else c))
      ∧ parseJumlah "1.5" = some 15
      ∧ (tambah_pemasukan "t" "1.5" "x" ⟨0, []⟩ fs0).2.1.riwayat
          = [⟨"t", .Pemasukan, 15, "x"⟩] :=
  ⟨rfl, rfl, rfl⟩

/-- C10: load_data returns any parsable JSON value as-is, with no shape
validation and without touching the store: a value that is not an object
of the expected shape is still returned as the ledger, and the
corruption-recovery path (backup and fresh dict) is not taken. -/
theorem c10_no_shape_validation (v : Json) (bak0 : Option RawFile) (renameOk : Bool) :
    load_data renameOk ⟨some (.json v), bak0⟩ = (v, ⟨some (.json v), bak0⟩) :=
  rfl

end PengelolaUang
